import Mathlib

/-!
# Verification of the peernet chat core

A shallow embedding of the peernet chat application's session core:
the chat message wire codec (Go `encoding/json` on the `chatMessage`
struct, restricted to the fragment that struct exercises: objects of
string fields), the room-session operations (`JoinChatRoom`, the publish
and receive loop bodies, `Exit`, `UpdateUser`), and the UI command layer
(`createInputField` line handling, `processCommand`, `switchRoom`).

Modelling conventions:
* A Go string is a sequence of Unicode code points, embedded as `List Nat`
  (abbreviated `Str`).
* A peer identity (`peer.ID`) is embedded by its canonical string form,
  so `Pretty` is the identity; the code only compares identities for
  equality and renders them.
* Channel sends are embedded as event traces: each loop-body or handler
  function returns the list of values it sent on each channel during one
  iteration, rather than mutating a channel.
-/

/-- A Go string, as its sequence of Unicode code points. -/
abbrev Str : Type := List Nat

/-- Code points of a Lean string literal, used to transcribe Go string
literals into the embedding. -/
def strCodes (s : String) : Str := s.toList.map Char.toNat

/-- The wire envelope `chatMessage` (fields `message`, `senderid`,
`sendername`, all strings). -/
structure chatMessage where
  Message : Str
  SenderID : Str
  SenderName : Str
deriving DecidableEq

/-- A diagnostic log entry `chatLog` (fields `Prefix`, `Msg`). -/
structure chatLog where
  Prefix : Str
  Msg : Str
deriving DecidableEq

/-! ## JSON string escaping (Go `encoding/json` encoder)

`json.Marshal` writes a string with `"`, `\`, `\n`, `\r`, `\t` escaped,
other control characters as `\u00XX` (lowercase hex), and — because
`Marshal` HTML-escapes by default — `<`, `>`, `&` as `<`, `>`,
`&` and U+2028/U+2029 as ` `/` `. -/

/-- Lowercase hexadecimal digit character for a value below 16. -/
def hexDigit (n : Nat) : Nat :=
  if n < 10 then 48 + n else 87 + n

/-- Escape one code point the way Go `encoding/json` writes it inside a
string literal (HTML-escaping on, as `json.Marshal` uses). -/
def escapeChar (c : Nat) : List Nat :=
  if c = 34 then [92, 34]
  else if c = 92 then [92, 92]
  else if c = 10 then [92, 110]
  else if c = 13 then [92, 114]
  else if c = 9 then [92, 116]
  else if c < 32 then [92, 117, 48, 48, hexDigit (c / 16), hexDigit (c % 16)]
  else if c = 60 then [92, 117, 48, 48, 51, 99]
  else if c = 62 then [92, 117, 48, 48, 51, 101]
  else if c = 38 then [92, 117, 48, 48, 50, 54]
  else if c = 8232 then [92, 117, 50, 48, 50, 56]
  else if c = 8233 then [92, 117, 50, 48, 50, 57]
  else [c]

/-- Escape a whole string body. -/
def escapeStr (s : Str) : List Nat :=
  match s with
  | [] => []
  | c :: rest => escapeChar c ++ escapeStr rest

/-- A quoted JSON string literal. -/
def quoteStr (s : Str) : List Nat :=
  34 :: escapeStr s ++ [34]

/-- `json.Marshal` output for a `chatMessage` value: field order follows
the struct, keys come from the field tags, no interstitial whitespace. -/
def marshalChatMessage (m : chatMessage) : List Nat :=
  [123] ++ quoteStr (strCodes "message") ++ [58] ++ quoteStr m.Message
  ++ [44] ++ quoteStr (strCodes "senderid") ++ [58] ++ quoteStr m.SenderID
  ++ [44] ++ quoteStr (strCodes "sendername") ++ [58] ++ quoteStr m.SenderName
  ++ [125]

/-! ## JSON parsing (Go `encoding/json` decoder, restricted)

`json.Unmarshal` into the `chatMessage` struct. The model covers the
fragment that struct exercises: a JSON object whose member values are
strings, with optional whitespace, keys matched to the three fields
ASCII-case-insensitively, unknown keys ignored, later duplicates
overwriting, missing fields left at the zero value, and trailing input
rejected. (The full decoder also accepts non-string member values for
unknown keys, `null` at top level, and combines `\u` surrogate pairs;
none of those inputs is produced by the encoder.) -/

/-- Value of a hexadecimal digit character, if it is one. -/
def parseHexDigit (c : Nat) : Option Nat :=
  if 48 ≤ c ∧ c ≤ 57 then some (c - 48)
  else if 97 ≤ c ∧ c ≤ 102 then some (c - 87)
  else if 65 ≤ c ∧ c ≤ 70 then some (c - 55)
  else none

/-- Parse the body of a JSON string literal after its opening quote,
returning the decoded string and the input after the closing quote. -/
def parseStringBody (l : List Nat) : Option (Str × List Nat) :=
  match l with
  | [] => none
  | c :: rest =>
    if c = 34 then some ([], rest)
    else if c = 92 then
      match rest with
      | [] => none
      | e :: rest2 =>
        if e = 34 then (parseStringBody rest2).map (fun p => (34 :: p.1, p.2))
        else if e = 92 then (parseStringBody rest2).map (fun p => (92 :: p.1, p.2))
        else if e = 47 then (parseStringBody rest2).map (fun p => (47 :: p.1, p.2))
        else if e = 98 then (parseStringBody rest2).map (fun p => (8 :: p.1, p.2))
        else if e = 102 then (parseStringBody rest2).map (fun p => (12 :: p.1, p.2))
        else if e = 110 then (parseStringBody rest2).map (fun p => (10 :: p.1, p.2))
        else if e = 114 then (parseStringBody rest2).map (fun p => (13 :: p.1, p.2))
        else if e = 116 then (parseStringBody rest2).map (fun p => (9 :: p.1, p.2))
        else if e = 117 then
          match rest2 with
          | a :: b :: c2 :: d :: rest3 =>
            match parseHexDigit a, parseHexDigit b, parseHexDigit c2, parseHexDigit d with
            | some ha, some hb, some hc, some hd =>
              (parseStringBody rest3).map
                (fun p => ((ha * 4096 + hb * 256 + hc * 16 + hd) :: p.1, p.2))
            | _, _, _, _ => none
          | _ => none
        else none
    else if c < 32 then none
    else (parseStringBody rest).map (fun p => (c :: p.1, p.2))

/-- Skip JSON whitespace (space, tab, newline, carriage return). -/
def skipWs (l : List Nat) : List Nat :=
  match l with
  | [] => []
  | c :: rest =>
    if c = 32 ∨ c = 9 ∨ c = 10 ∨ c = 13 then skipWs rest else c :: rest

/-- Parse a JSON string literal, allowing leading whitespace. -/
def parseJsonString (l : List Nat) : Option (Str × List Nat) :=
  match skipWs l with
  | [] => none
  | c :: rest => if c = 34 then parseStringBody rest else none

/-- ASCII-lowercase a code point (Go matches object keys to struct
fields case-insensitively). -/
def lowerAscii (c : Nat) : Nat :=
  if 65 ≤ c ∧ c ≤ 90 then c + 32 else c

/-- Assign a decoded object member to the matching struct field;
unknown keys are ignored. -/
def assignField (m : chatMessage) (key value : Str) : chatMessage :=
  if List.map lowerAscii key = strCodes "message" then
    { m with Message := value }
  else if List.map lowerAscii key = strCodes "senderid" then
    { m with SenderID := value }
  else if List.map lowerAscii key = strCodes "sendername" then
    { m with SenderName := value }
  else m

/-- Parse one `"key" : "value"` object member and fold it into the
struct being built. -/
def parseMember (m : chatMessage) (l : List Nat) : Option (chatMessage × List Nat) :=
  match parseJsonString l with
  | none => none
  | some (key, rest) =>
    match skipWs rest with
    | [] => none
    | c :: rest2 =>
      if c = 58 then
        match parseJsonString rest2 with
        | none => none
        | some (value, rest3) => some (assignField m key value, rest3)
      else none

/-- Parse the members of a non-empty object up to and including the
closing brace. The fuel only bounds the number of comma-separated
members; the Go decoder terminates because each member consumes input. -/
def parseMembers (fuel : Nat) (m : chatMessage) (l : List Nat) : Option (chatMessage × List Nat) :=
  match parseMember m l with
  | none => none
  | some (m2, rest) =>
    match skipWs rest with
    | [] => none
    | c :: rest2 =>
      if c = 44 then
        match fuel with
        | 0 => none
        | fuel' + 1 => parseMembers fuel' m2 rest2
      else if c = 125 then some (m2, rest2)
      else none

/-- The zero value the Go decoder starts from (`var chatMsg chatMessage`). -/
def zeroChatMessage : chatMessage :=
  { Message := ([] : List Nat), SenderID := ([] : List Nat), SenderName := ([] : List Nat) }

/-- `json.Unmarshal` into a zero `chatMessage`: a JSON object of string
members, with nothing but whitespace after it. -/
def unmarshalChatMessage (l : List Nat) : Option chatMessage :=
  match skipWs l with
  | [] => none
  | c :: rest =>
    if c = 123 then
      match skipWs rest with
      | [] => none
      | d :: rest2 =>
        if d = 125 then
          if skipWs rest2 = [] then some zeroChatMessage else none
        else
          match parseMembers l.length zeroChatMessage (d :: rest2) with
          | none => none
          | some (m, rest3) => if skipWs rest3 = [] then some m else none
    else none

example : strCodes "/room" = [47, 114, 111, 111, 109] := by decide

example :
    unmarshalChatMessage
      (marshalChatMessage
        { Message := strCodes "hi there", SenderID := strCodes "QmSelf",
          SenderName := strCodes "bob" }) =
    some { Message := strCodes "hi there", SenderID := strCodes "QmSelf",
           SenderName := strCodes "bob" } := by decide

example : unmarshalChatMessage ([] : List Nat) = none := by decide

example :
    unmarshalChatMessage (strCodes "not json") = none := by decide

/-! ## The room session (`ChatRoom`)

The pubsub substrate is embedded by the results its calls return: a
network handle carries the host identity and the outcome of
`PubSub.Join` per topic name; a topic handle carries the outcome of its
`Subscribe` call. Errors are Go `error` values, embedded as their
message strings. -/

/-- A peer identity, by its canonical string form. -/
abbrev PeerID : Type := Str

/-- `peer.ID.Pretty`, the string rendering of an identity. Identities
are embedded by their string form, so this is the identity function. -/
def peerPretty (p : PeerID) : Str := p

/-- A pubsub subscription handle (opaque). -/
structure Subscription where
  subId : Nat
deriving DecidableEq

/-- A pubsub topic handle: its name and what its `Subscribe` call
returns. -/
structure Topic where
  name : Str
  subscribeResult : Except Str Subscription

/-- The network handle (`PeerNetwork`): the host identity and what
`PubSub.Join` returns for each topic name. -/
structure PeerNetwork where
  hostID : PeerID
  pubsubJoin : Str → Except Str Topic

/-- `ChatRoom`: the session state built by `JoinChatRoom`. The three
channels are embedded as event traces of the step functions below, and
the lifecycle context by the resource state of `Exit`. -/
structure ChatRoom where
  Host : PeerNetwork
  RoomName : Str
  UserName : Str
  selfID : PeerID
  psTopic : Topic
  psSub : Subscription

/-- The topic name `fmt.Sprintf("room-peerchat-%s", roomName)`. -/
def topicName (roomName : Str) : Str :=
  strCodes "room-peerchat-" ++ roomName

/-- `JoinChatRoom(p2pHost, username, roomName)`: join the topic, then
subscribe; either failure returns the error and no session. -/
def JoinChatRoom (p2pHost : PeerNetwork) (username roomName : Str) :
    Except Str ChatRoom :=
  match p2pHost.pubsubJoin (topicName roomName) with
  | .error e => .error e
  | .ok topic =>
    match topic.subscribeResult with
    | .error e => .error e
    | .ok sub =>
      .ok { Host := p2pHost, RoomName := roomName, UserName := username,
            selfID := p2pHost.hostID, psTopic := topic, psSub := sub }

/-- `UpdateUser`: set the display name in place. -/
def UpdateUser (cr : ChatRoom) (newUsername : Str) : ChatRoom :=
  { cr with UserName := newUsername }

/-- The envelope the publish loop builds for one dequeued outbound
message: the text, the local identity's string form, and the display
name read at dequeue time. -/
def publishEnvelope (cr : ChatRoom) (message : Str) : chatMessage :=
  { Message := message, SenderID := peerPretty cr.selfID,
    SenderName := cr.UserName }

/-- The bytes one publish-loop iteration hands to `psTopic.Publish`. -/
def publishStep (cr : ChatRoom) (message : Str) : List Nat :=
  marshalChatMessage (publishEnvelope cr message)

/-! ### The receive loop (`subscribeLoop`), one iteration -/

/-- What one blocking read of the subscription yields: cancellation of
the lifecycle context, a read error from `psSub.Next`, or a message with
its transport-level sender (`msg.ReceivedFrom`) and raw payload
(`msg.Data`). -/
inductive SubEvent where
  | cancelled : SubEvent
  | readError : SubEvent
  | received : PeerID → List Nat → SubEvent

/-- Everything one receive-loop iteration does: log entries sent on
`Logs`, messages sent on `Inbound`, whether the loop runs another
iteration, and whether it closed `Inbound`. -/
structure SubStepResult where
  logs : List chatLog
  delivered : List chatMessage
  continues : Bool
  closedInbound : Bool
deriving DecidableEq

/-- One iteration of `subscribeLoop` for session identity `selfID`,
given what the read produced. -/
def subscribeStep (selfID : PeerID) (ev : SubEvent) : SubStepResult :=
  match ev with
  | .cancelled =>
    { logs := [], delivered := [], continues := false, closedInbound := true }
  | .readError =>
    { logs := [{ Prefix := strCodes "suberr", Msg := strCodes "subscription closed" }],
      delivered := [], continues := false, closedInbound := true }
  | .received sender data =>
    if sender = selfID then
      { logs := [], delivered := [], continues := true, closedInbound := false }
    else
      match unmarshalChatMessage data with
      | none =>
        { logs := [{ Prefix := strCodes "suberr",
                     Msg := strCodes "failed to unmarshal JSON" }],
          delivered := [], continues := true, closedInbound := false }
      | some chatMsg =>
        { logs := [], delivered := [chatMsg], continues := true,
          closedInbound := false }

/-! ### `Exit` and the session's resources

`Exit` cancels the subscription, closes the topic, and (deferred)
cancels the lifecycle context. Each of those substrate operations is
idempotent per the substrate interface (cancelling a cancelled
subscription, closing a closed topic and cancelling a cancelled context
are no-ops; `Exit` ignores `Close`'s error result). `Exit` closes no
channel; the `Inbound` channel is closed only by the receive loop, which
is why the model tracks that flag separately and `Exit` leaves it
alone. -/

/-- The closeable resources of one session. -/
structure SessionResources where
  subCancelled : Bool
  topicClosed : Bool
  ctxCancelled : Bool
  inboundClosed : Bool
deriving DecidableEq

/-- `Exit()` on the session's resource state. -/
def Exit (s : SessionResources) : SessionResources :=
  { s with subCancelled := true, topicClosed := true, ctxCancelled := true }

/-! ## The UI command layer

`UI` embeds the bits of UI state the handlers mutate: the active session
reference, the input-field label and the message-box title. Everything a
handler emits (channel sends, substrate calls, display mutations) is
collected in a `UIEffects` trace. -/

/-- `UICommand`: a parsed command line. -/
structure UICommand where
  CommandType : Str
  Argument : Str
deriving DecidableEq

/-- The mutable UI state the handlers touch. -/
structure UI where
  chatRoom : ChatRoom
  inputLabel : Str
  msgBoxTitle : Str

/-- Observable effects of one handler invocation: `Logs` sends,
`Outbound` sends, `JoinChatRoom` attempts (by room name), `Exit` calls
(the sessions exited), message-box clears, and app stop. -/
structure UIEffects where
  logs : List chatLog
  outbound : List Str
  joined : List Str
  exits : List ChatRoom
  cleared : Bool
  stopped : Bool

/-- The empty effect trace. -/
def noEffects : UIEffects :=
  { logs := [], outbound := [], joined := [], exits := [], cleared := false,
    stopped := false }

/-- `switchRoom`: log the attempt, try `JoinChatRoom`; on failure log the
error and leave the state untouched; on success exit the old session,
install the new one, clear the box and retitle it. -/
def switchRoom (ui : UI) (roomName : Str) : UI × UIEffects :=
  let infoLog : chatLog :=
    { Prefix := strCodes "info",
      Msg := strCodes "switching to room '" ++ roomName ++ strCodes "'" }
  match JoinChatRoom ui.chatRoom.Host ui.chatRoom.UserName roomName with
  | .error e =>
    (ui,
     { logs := [infoLog,
        { Prefix := strCodes "error",
          Msg := strCodes "could not switch rooms: " ++ e }],
       outbound := [], joined := [roomName], exits := [], cleared := false,
       stopped := false })
  | .ok newChatRoom =>
    ({ chatRoom := newChatRoom, inputLabel := ui.inputLabel,
       msgBoxTitle := strCodes "ChatRoom-" ++ newChatRoom.RoomName },
     { logs := [infoLog], outbound := [], joined := [roomName],
       exits := [ui.chatRoom], cleared := true, stopped := false })

/-- `processCommand`: dispatch on the command type string. -/
def processCommand (ui : UI) (cmd : UICommand) : UI × UIEffects :=
  if cmd.CommandType = strCodes "/exit" then
    (ui, { logs := [], outbound := [], joined := [], exits := [],
           cleared := false, stopped := true })
  else if cmd.CommandType = strCodes "/clear" then
    (ui, { logs := [], outbound := [], joined := [], exits := [],
           cleared := true, stopped := false })
  else if cmd.CommandType = strCodes "/room" then
    if cmd.Argument = strCodes "" then
      (ui, { logs := [{ Prefix := strCodes "error",
                        Msg := strCodes "missing room name" }],
             outbound := [], joined := [], exits := [], cleared := false,
             stopped := false })
    else switchRoom ui cmd.Argument
  else if cmd.CommandType = strCodes "/user" then
    if cmd.Argument = strCodes "" then
      (ui, { logs := [{ Prefix := strCodes "error",
                        Msg := strCodes "missing username" }],
             outbound := [], joined := [], exits := [], cleared := false,
             stopped := false })
    else
      let cr := UpdateUser ui.chatRoom cmd.Argument
      ({ chatRoom := cr, inputLabel := cr.UserName ++ strCodes " > ",
         msgBoxTitle := ui.msgBoxTitle }, noEffects)
  else
    (ui, { logs := [{ Prefix := strCodes "error",
                      Msg := strCodes "unsupported command: " ++ cmd.CommandType }],
           outbound := [], joined := [], exits := [], cleared := false,
           stopped := false })

/-- `strings.SplitN(line, " ", 2)`: the part before the first space, and
the remainder after it when a space exists. -/
def splitN2 (l : Str) : Str × Option Str :=
  match l with
  | [] => ([], none)
  | c :: rest =>
    if c = 32 then ([], some rest)
    else
      let p := splitN2 rest
      (c :: p.1, p.2)

/-- What the input-field done handler produces from a committed line. -/
inductive InputEvent where
  | command : UICommand → InputEvent
  | message : Str → InputEvent
  | ignored : InputEvent
deriving DecidableEq

/-- The `createInputField` done handler: empty lines are ignored; a line
whose first character is the reserved `/` is split into command and
optional argument; anything else goes out as a plain message. -/
def parseInputLine (line : Str) : InputEvent :=
  match line with
  | [] => .ignored
  | c :: _ =>
    if c = 47 then
      let p := splitN2 line
      .command { CommandType := p.1, Argument := p.2.getD (strCodes "") }
    else .message line

/-- One committed input line, end to end: the done handler routes it to
the command channel or the message channel, and the `handleEvents`
multiplexer then either runs `processCommand` or forwards the text to
`Outbound`. -/
def handleLine (ui : UI) (line : Str) : UI × UIEffects :=
  match parseInputLine line with
  | .command c => processCommand ui c
  | .message t =>
    (ui, { logs := [], outbound := [t], joined := [], exits := [],
           cleared := false, stopped := false })
  | .ignored => (ui, noEffects)

/-! ## Codec lemmas -/

/-- `parseHexDigit` inverts `hexDigit` on values below 16. -/
theorem parseHexDigit_hexDigit (n : Nat) (h : n < 16) :
    parseHexDigit (hexDigit n) = some n := by
  interval_cases n <;> decide

/-- The decoder undoes one encoder escape and keeps going. -/
theorem parseStringBody_escapeChar (c : Nat) (t : List Nat) (k : Str)
    (r : List Nat) (h : parseStringBody t = some (k, r)) :
    parseStringBody (escapeChar c ++ t) = some (c :: k, r) := by
  by_cases h1 : c = 34
  · subst h1; rw [show escapeChar 34 = [92, 34] from rfl, parseStringBody.eq_def]
    simp [h]
  by_cases h2 : c = 92
  · subst h2; rw [show escapeChar 92 = [92, 92] from rfl, parseStringBody.eq_def]
    simp [h]
  by_cases h3 : c = 10
  · subst h3; rw [show escapeChar 10 = [92, 110] from rfl, parseStringBody.eq_def]
    simp [h]
  by_cases h4 : c = 13
  · subst h4; rw [show escapeChar 13 = [92, 114] from rfl, parseStringBody.eq_def]
    simp [h]
  by_cases h5 : c = 9
  · subst h5; rw [show escapeChar 9 = [92, 116] from rfl, parseStringBody.eq_def]
    simp [h]
  by_cases h6 : c < 32
  · have hesc : escapeChar c = [92, 117, 48, 48, hexDigit (c / 16), hexDigit (c % 16)] := by
      unfold escapeChar
      rw [if_neg h1, if_neg h2, if_neg h3, if_neg h4, if_neg h5, if_pos h6]
    have d1 := parseHexDigit_hexDigit (c / 16) (by omega)
    have d2 := parseHexDigit_hexDigit (c % 16) (Nat.mod_lt _ (by norm_num))
    rw [hesc, parseStringBody.eq_def]
    simp [show parseHexDigit 48 = some 0 from rfl, d1, d2, h]
    omega
  by_cases h7 : c = 60
  · subst h7; rw [show escapeChar 60 = [92, 117, 48, 48, 51, 99] from rfl,
      parseStringBody.eq_def]
    simp [parseHexDigit, h]
  by_cases h8 : c = 62
  · subst h8; rw [show escapeChar 62 = [92, 117, 48, 48, 51, 101] from rfl,
      parseStringBody.eq_def]
    simp [parseHexDigit, h]
  by_cases h9 : c = 38
  · subst h9; rw [show escapeChar 38 = [92, 117, 48, 48, 50, 54] from rfl,
      parseStringBody.eq_def]
    simp [parseHexDigit, h]
  by_cases h10 : c = 8232
  · subst h10; rw [show escapeChar 8232 = [92, 117, 50, 48, 50, 56] from rfl,
      parseStringBody.eq_def]
    simp [parseHexDigit, h]
  by_cases h11 : c = 8233
  · subst h11; rw [show escapeChar 8233 = [92, 117, 50, 48, 50, 57] from rfl,
      parseStringBody.eq_def]
    simp [parseHexDigit, h]
  · have hesc : escapeChar c = [c] := by
      unfold escapeChar
      rw [if_neg h1, if_neg h2, if_neg h3, if_neg h4, if_neg h5, if_neg h6,
        if_neg h7, if_neg h8, if_neg h9, if_neg h10, if_neg h11]
    rw [hesc, List.singleton_append, parseStringBody.eq_def]
    simp [h1, h2, h6, h]
/-- The decoder undoes the encoder on a whole string body. -/
theorem parseStringBody_escapeStr (s : Str) (rest : List Nat) :
    parseStringBody (escapeStr s ++ 34 :: rest) = some (s, rest) := by
  induction s with
  | nil =>
    rw [escapeStr, List.nil_append, parseStringBody.eq_def]
    simp
  | cons c s ih =>
    rw [escapeStr, List.append_assoc]
    exact parseStringBody_escapeChar c _ s rest ih

/-- A non-whitespace head stops `skipWs` at once. -/
theorem skipWs_cons_of (c : Nat) (l : List Nat)
    (h : ¬(c = 32 ∨ c = 9 ∨ c = 10 ∨ c = 13)) : skipWs (c :: l) = c :: l := by
  rw [skipWs.eq_def]
  simp [h]

/-- A quoted string parses back to itself, leaving the tail. -/
theorem parseJsonString_quoteStr (s : Str) (tail : List Nat) :
    parseJsonString (quoteStr s ++ tail) = some (s, tail) := by
  have hq : quoteStr s ++ tail = 34 :: (escapeStr s ++ 34 :: tail) := by
    simp [quoteStr]
  rw [hq, parseJsonString]
  rw [skipWs_cons_of 34 _ (by decide)]
  simp [parseStringBody_escapeStr s tail]

/-- One encoded `"key":"value"` member parses and assigns its field. -/
theorem parseMember_quoted (m : chatMessage) (key value : Str) (tail : List Nat) :
    parseMember m (quoteStr key ++ 58 :: (quoteStr value ++ tail)) =
      some (assignField m key value, tail) := by
  rw [parseMember, parseJsonString_quoteStr key]
  simp [skipWs_cons_of 58 _ (by decide), parseJsonString_quoteStr value tail]

/-- A three-member encoded object parses with any fuel of at least 2,
folding the three assignments in order. -/
theorem parseMembers_three (fuel : Nat) (hf : 2 ≤ fuel) (m0 : chatMessage)
    (k1 v1 k2 v2 k3 v3 : Str) :
    parseMembers fuel m0
      (quoteStr k1 ++ 58 :: (quoteStr v1 ++ 44 :: (quoteStr k2 ++ 58 :: (quoteStr v2
        ++ 44 :: (quoteStr k3 ++ 58 :: (quoteStr v3 ++ [125])))))) =
      some (assignField (assignField (assignField m0 k1 v1) k2 v2) k3 v3, []) := by
  obtain ⟨f, rfl⟩ : ∃ f, fuel = f + 2 := ⟨fuel - 2, by omega⟩
  have step3 : parseMembers f (assignField (assignField m0 k1 v1) k2 v2)
      (quoteStr k3 ++ 58 :: (quoteStr v3 ++ [125])) =
      some (assignField (assignField (assignField m0 k1 v1) k2 v2) k3 v3, []) := by
    rw [parseMembers, parseMember_quoted]
    simp [skipWs_cons_of 125 _ (by decide)]
  have step2 : parseMembers (f + 1) (assignField m0 k1 v1)
      (quoteStr k2 ++ 58 :: (quoteStr v2
        ++ 44 :: (quoteStr k3 ++ 58 :: (quoteStr v3 ++ [125])))) =
      some (assignField (assignField (assignField m0 k1 v1) k2 v2) k3 v3, []) := by
    rw [parseMembers, parseMember_quoted]
    simp only [skipWs_cons_of 44 _ (by decide)]
    simp [step3]
  rw [parseMembers, parseMember_quoted]
  simp only [skipWs_cons_of 44 _ (by decide)]
  simp [step2]

/-- `unmarshalChatMessage` on a brace-headed input whose object body is
already exposed: definitional view of the decoder's control flow. -/
theorem unmarshal_view (Bt : List Nat) :
    unmarshalChatMessage (123 :: 34 :: Bt) =
      (match parseMembers (Bt.length + 2) zeroChatMessage (34 :: Bt) with
       | none => none
       | some (m, rest3) => if skipWs rest3 = [] then some m else none) := rfl

/-- Serialize-then-deserialize restores every `chatMessage`. -/
theorem unmarshal_marshal (m : chatMessage) :
    unmarshalChatMessage (marshalChatMessage m) = some m := by
  have a1 : ∀ (mm : chatMessage) (v : Str),
      assignField mm (strCodes "message") v = { mm with Message := v } := by
    intro mm v; rw [assignField, if_pos (by decide)]
  have a2 : ∀ (mm : chatMessage) (v : Str),
      assignField mm (strCodes "senderid") v = { mm with SenderID := v } := by
    intro mm v; rw [assignField, if_neg (by decide), if_pos (by decide)]
  have a3 : ∀ (mm : chatMessage) (v : Str),
      assignField mm (strCodes "sendername") v = { mm with SenderName := v } := by
    intro mm v
    rw [assignField, if_neg (by decide), if_neg (by decide), if_pos (by decide)]
  have hm : marshalChatMessage m =
      123 :: (quoteStr (strCodes "message") ++ 58 :: (quoteStr m.Message
        ++ 44 :: (quoteStr (strCodes "senderid") ++ 58 :: (quoteStr m.SenderID
        ++ 44 :: (quoteStr (strCodes "sendername") ++ 58 :: (quoteStr m.SenderName
        ++ [125])))))) := by
    simp [marshalChatMessage]
  have hB : quoteStr (strCodes "message") ++ 58 :: (quoteStr m.Message
        ++ 44 :: (quoteStr (strCodes "senderid") ++ 58 :: (quoteStr m.SenderID
        ++ 44 :: (quoteStr (strCodes "sendername") ++ 58 :: (quoteStr m.SenderName
        ++ [125])))))
      = 34 :: (escapeStr (strCodes "message") ++ 34 :: (58 :: (quoteStr m.Message
        ++ 44 :: (quoteStr (strCodes "senderid") ++ 58 :: (quoteStr m.SenderID
        ++ 44 :: (quoteStr (strCodes "sendername") ++ 58 :: (quoteStr m.SenderName
        ++ [125]))))))) := by
    simp [quoteStr]
  rw [hm, hB, unmarshal_view, ← hB]
  rw [parseMembers_three _ (by omega) zeroChatMessage]
  simp [skipWs, a1, a2, a3, zeroChatMessage]

/-! ## Claim theorems -/

/-- C1: every message read by the receive loop whose sender identity
equals the session's local peer identity is discarded — nothing is
forwarded to the inbound channel, for all payload contents, and the loop
continues. -/
theorem C1_self_echo_suppressed (selfID : PeerID) (data : List Nat) :
    (subscribeStep selfID (.received selfID data)).delivered = [] ∧
    (subscribeStep selfID (.received selfID data)).continues = true := by
  simp [subscribeStep]

/-- C2: a payload from a non-self sender that does not decode as a
`chatMessage` produces exactly one log entry, zero inbound deliveries,
and the loop continues (it neither terminates nor closes the channel). -/
theorem C2_malformed_payload (selfID sender : PeerID) (data : List Nat)
    (hns : sender ≠ selfID) (hbad : unmarshalChatMessage data = none) :
    subscribeStep selfID (.received sender data) =
      { logs := [{ Prefix := strCodes "suberr",
                   Msg := strCodes "failed to unmarshal JSON" }],
        delivered := [], continues := true, closedInbound := false } := by
  simp [subscribeStep, hns, hbad]

/-- C2 witness: a concrete non-self sender and a concrete undecodable
payload (the empty byte string). -/
theorem C2_malformed_payload_witness :
    strCodes "QmPeer" ≠ strCodes "QmSelf" ∧
    unmarshalChatMessage [] = none ∧
    subscribeStep (strCodes "QmSelf") (.received (strCodes "QmPeer") []) =
      { logs := [{ Prefix := strCodes "suberr",
                   Msg := strCodes "failed to unmarshal JSON" }],
        delivered := [], continues := true, closedInbound := false } :=
  ⟨by decide, by decide,
   C2_malformed_payload (strCodes "QmSelf") (strCodes "QmPeer") [] (by decide)
     (by decide)⟩

/-- C10: self-echo suppression is decided purely on the transport-level
sender, before deserialization: a self message produces no log and no
delivery even when malformed; and a non-self message that decodes is
delivered whatever its embedded `senderid` field holds — the envelope
field plays no role in the decision. -/
theorem C10_transport_sender_decides :
    (∀ (selfID : PeerID) (data : List Nat),
      subscribeStep selfID (.received selfID data) =
        { logs := [], delivered := [], continues := true,
          closedInbound := false }) ∧
    (∀ (selfID sender : PeerID) (data : List Nat) (cm : chatMessage),
      sender ≠ selfID → unmarshalChatMessage data = some cm →
      subscribeStep selfID (.received sender data) =
        { logs := [], delivered := [cm], continues := true,
          closedInbound := false }) := by
  constructor
  · intro selfID data
    simp [subscribeStep]
  · intro selfID sender data cm hns hok
    simp [subscribeStep, hns, hok]

/-- C10 witness: a malformed self message is silently dropped, and a
well-formed message from another peer whose embedded `senderid` equals
the local identity's string form is still delivered. -/
theorem C10_transport_sender_decides_witness :
    subscribeStep (strCodes "QmSelf")
      (.received (strCodes "QmSelf") (strCodes "garbage")) =
      { logs := [], delivered := [], continues := true,
        closedInbound := false } ∧
    subscribeStep (strCodes "QmSelf")
      (.received (strCodes "QmPeer")
        (marshalChatMessage
          { Message := strCodes "hi", SenderID := strCodes "QmSelf",
            SenderName := strCodes "mallory" })) =
      { logs := [],
        delivered := [{ Message := strCodes "hi", SenderID := strCodes "QmSelf",
                        SenderName := strCodes "mallory" }],
        continues := true, closedInbound := false } :=
  ⟨C10_transport_sender_decides.1 (strCodes "QmSelf") (strCodes "garbage"),
   C10_transport_sender_decides.2 (strCodes "QmSelf") (strCodes "QmPeer") _ _
     (by decide) (by decide)⟩

/-- C6: if the topic join step or the subscribe step fails, `JoinChatRoom`
returns that error and no session object is returned to the caller. -/
theorem C6_join_no_partial_session (p2pHost : PeerNetwork) (username roomName : Str) :
    (∀ e, p2pHost.pubsubJoin (topicName roomName) = .error e →
      JoinChatRoom p2pHost username roomName = .error e) ∧
    (∀ t e, p2pHost.pubsubJoin (topicName roomName) = .ok t →
      t.subscribeResult = .error e →
      JoinChatRoom p2pHost username roomName = .error e) := by
  constructor
  · intro e he
    simp [JoinChatRoom, he]
  · intro t e ht hsub
    simp [JoinChatRoom, ht, hsub]

/-- C6 witness: a network whose join fails, and one whose subscribe
fails; both yield the error and no session. -/
theorem C6_join_no_partial_session_witness :
    JoinChatRoom
      { hostID := strCodes "QmA",
        pubsubJoin := fun _ => .error (strCodes "join failed") }
      (strCodes "u") (strCodes "lobby") = .error (strCodes "join failed") ∧
    JoinChatRoom
      { hostID := strCodes "QmA",
        pubsubJoin := fun n =>
          .ok { name := n, subscribeResult := .error (strCodes "sub failed") } }
      (strCodes "u") (strCodes "lobby") = .error (strCodes "sub failed") :=
  ⟨(C6_join_no_partial_session _ _ _).1 _ rfl,
   (C6_join_no_partial_session _ _ _).2 _ _ rfl rfl⟩

/-- C7: the topic name is the fixed namespace literal, a dash, then the
room name, case-sensitively; equal room names give equal topic names. -/
theorem C7_topic_naming :
    (∀ roomName : Str,
      topicName roomName = strCodes "room-peerchat" ++ strCodes "-" ++ roomName) ∧
    (∀ r1 r2 : Str, r1 = r2 → topicName r1 = topicName r2) := by
  constructor
  · intro roomName
    rw [topicName,
      show strCodes "room-peerchat-" = strCodes "room-peerchat" ++ strCodes "-"
        from by decide,
      List.append_assoc]
  · intro r1 r2 h
    rw [h]

/-- C7 witness: the convention and determinism at the room `lobby`. -/
theorem C7_topic_naming_witness :
    topicName (strCodes "lobby") =
      strCodes "room-peerchat" ++ strCodes "-" ++ strCodes "lobby" ∧
    topicName (strCodes "lobby") = topicName (strCodes "lobby") :=
  ⟨C7_topic_naming.1 _, C7_topic_naming.2 _ _ rfl⟩

/-- C9: `Exit` is idempotent on the session's resources and closes no
channel — in particular it never touches the `Inbound` close flag, so a
second call cannot double-close it, whatever state the loops left. -/
theorem C9_exit_idempotent (s : SessionResources) :
    Exit (Exit s) = Exit s ∧ (Exit s).inboundClosed = s.inboundClosed := by
  constructor <;> rfl

/-- C4: serializing any `chatMessage` and deserializing the resulting
bytes restores the original value, for all field contents. -/
theorem C4_serialize_roundtrip (m : chatMessage) :
    unmarshalChatMessage (marshalChatMessage m) = some m :=
  unmarshal_marshal m

/-- C3: when joining the new room fails, `switchRoom` leaves the active
session reference untouched, exits nothing, and emits exactly one
error-prefixed log entry. -/
theorem C3_switch_atomic (ui : UI) (roomName e : Str)
    (hfail : JoinChatRoom ui.chatRoom.Host ui.chatRoom.UserName roomName =
      .error e) :
    (switchRoom ui roomName).1 = ui ∧
    (switchRoom ui roomName).2.exits = [] ∧
    ((switchRoom ui roomName).2.logs.countP
      (fun l => decide (l.Prefix = strCodes "error"))) = 1 := by
  rw [switchRoom, hfail]
  refine ⟨rfl, rfl, ?_⟩
  simp [List.countP_cons]
  decide

/-- C3 witness: a concrete UI whose network refuses every join. -/
theorem C3_switch_atomic_witness :
    (switchRoom
      { chatRoom :=
        { Host := { hostID := strCodes "QmA",
                    pubsubJoin := fun _ => .error (strCodes "nope") },
          RoomName := strCodes "lobby", UserName := strCodes "u",
          selfID := strCodes "QmA",
          psTopic := { name := strCodes "room-peerchat-lobby",
                       subscribeResult := .ok { subId := 0 } },
          psSub := { subId := 0 } },
        inputLabel := strCodes "u > ",
        msgBoxTitle := strCodes "ChatRoom-lobby" }
      (strCodes "den")).1 =
    { chatRoom :=
      { Host := { hostID := strCodes "QmA",
                  pubsubJoin := fun _ => .error (strCodes "nope") },
        RoomName := strCodes "lobby", UserName := strCodes "u",
        selfID := strCodes "QmA",
        psTopic := { name := strCodes "room-peerchat-lobby",
                     subscribeResult := .ok { subId := 0 } },
        psSub := { subId := 0 } },
      inputLabel := strCodes "u > ",
      msgBoxTitle := strCodes "ChatRoom-lobby" } ∧
    (switchRoom
      { chatRoom :=
        { Host := { hostID := strCodes "QmA",
                    pubsubJoin := fun _ => .error (strCodes "nope") },
          RoomName := strCodes "lobby", UserName := strCodes "u",
          selfID := strCodes "QmA",
          psTopic := { name := strCodes "room-peerchat-lobby",
                       subscribeResult := .ok { subId := 0 } },
          psSub := { subId := 0 } },
        inputLabel := strCodes "u > ",
        msgBoxTitle := strCodes "ChatRoom-lobby" }
      (strCodes "den")).2.logs.countP
        (fun l => decide (l.Prefix = strCodes "error")) = 1 := by
  have h := C3_switch_atomic
    { chatRoom :=
      { Host := { hostID := strCodes "QmA",
                  pubsubJoin := fun _ => .error (strCodes "nope") },
        RoomName := strCodes "lobby", UserName := strCodes "u",
        selfID := strCodes "QmA",
        psTopic := { name := strCodes "room-peerchat-lobby",
                     subscribeResult := .ok { subId := 0 } },
        psSub := { subId := 0 } },
      inputLabel := strCodes "u > ",
      msgBoxTitle := strCodes "ChatRoom-lobby" }
    (strCodes "den") (strCodes "nope") rfl
  exact ⟨h.1, h.2.2⟩

/-- C5: `"/room"` without an argument yields only the missing-room error
log and no join attempt; `"/room lobby2"` attempts a switch with exactly
the argument `lobby2`; and any non-empty line not starting with the
reserved `/` goes out verbatim as a plain chat message, never parsed as
a command. -/
theorem C5_command_parsing (ui : UI) :
    handleLine ui (strCodes "/room") =
      (ui, { logs := [{ Prefix := strCodes "error",
                        Msg := strCodes "missing room name" }],
             outbound := [], joined := [], exits := [], cleared := false,
             stopped := false }) ∧
    (handleLine ui (strCodes "/room lobby2")).2.joined = [strCodes "lobby2"] ∧
    (∀ line : Str, line ≠ [] → line.head? ≠ some 47 →
      handleLine ui line =
        (ui, { logs := [], outbound := [line], joined := [], exits := [],
               cleared := false, stopped := false })) := by
  refine ⟨rfl, ?_, ?_⟩
  · have hroute : handleLine ui (strCodes "/room lobby2") =
        switchRoom ui (strCodes "lobby2") := rfl
    rw [hroute, switchRoom]
    rcases JoinChatRoom ui.chatRoom.Host ui.chatRoom.UserName (strCodes "lobby2")
      with e | cr <;> rfl
  · intro line hne hhead
    rcases line with _ | ⟨c, rest⟩
    · exact absurd rfl hne
    · have hc : c ≠ 47 := by
        intro hceq
        exact hhead (by simp [hceq])
      rw [handleLine, parseInputLine]
      simp [hc]

/-- C5 witness: the general no-prefix clause applied to the concrete
line `hello world` on a concrete UI. -/
theorem C5_command_parsing_witness :
    handleLine
      { chatRoom :=
        { Host := { hostID := strCodes "QmA",
                    pubsubJoin := fun _ => .error (strCodes "nope") },
          RoomName := strCodes "lobby", UserName := strCodes "u",
          selfID := strCodes "QmA",
          psTopic := { name := strCodes "room-peerchat-lobby",
                       subscribeResult := .ok { subId := 0 } },
          psSub := { subId := 0 } },
        inputLabel := strCodes "u > ",
        msgBoxTitle := strCodes "ChatRoom-lobby" }
      (strCodes "hello world") =
    ({ chatRoom :=
        { Host := { hostID := strCodes "QmA",
                    pubsubJoin := fun _ => .error (strCodes "nope") },
          RoomName := strCodes "lobby", UserName := strCodes "u",
          selfID := strCodes "QmA",
          psTopic := { name := strCodes "room-peerchat-lobby",
                       subscribeResult := .ok { subId := 0 } },
          psSub := { subId := 0 } },
        inputLabel := strCodes "u > ",
        msgBoxTitle := strCodes "ChatRoom-lobby" },
     { logs := [], outbound := [strCodes "hello world"], joined := [],
       exits := [], cleared := false, stopped := false }) :=
  (C5_command_parsing _).2.2 (strCodes "hello world") (by decide) (by decide)

/-- C8: `"/user"` with a non-empty argument renames in place — the
session keeps its room name, identity, topic and subscription, no new
session is joined, no log is emitted, the input label shows the new
name, and every envelope the publish loop builds afterwards carries the
new display name; `"/user"` with an empty argument only logs an error. -/
theorem C8_rename_in_place (ui : UI) (name : Str)
    (hne : name ≠ strCodes "") :
    (processCommand ui { CommandType := strCodes "/user", Argument := name }).1
      = { chatRoom := { ui.chatRoom with UserName := name },
          inputLabel := name ++ strCodes " > ",
          msgBoxTitle := ui.msgBoxTitle } ∧
    (processCommand ui { CommandType := strCodes "/user", Argument := name }).2
      = noEffects ∧
    (∀ text : Str,
      (publishEnvelope
        (processCommand ui
          { CommandType := strCodes "/user", Argument := name }).1.chatRoom
        text).SenderName = name) ∧
    processCommand ui { CommandType := strCodes "/user", Argument := strCodes "" }
      = (ui, { logs := [{ Prefix := strCodes "error",
                          Msg := strCodes "missing username" }],
               outbound := [], joined := [], exits := [], cleared := false,
               stopped := false }) := by
  have hbranch :
      processCommand ui { CommandType := strCodes "/user", Argument := name }
        = ({ chatRoom := { ui.chatRoom with UserName := name },
             inputLabel := name ++ strCodes " > ",
             msgBoxTitle := ui.msgBoxTitle }, noEffects) := by
    rw [processCommand]
    rw [if_neg (show ¬strCodes "/user" = strCodes "/exit" by decide),
      if_neg (show ¬strCodes "/user" = strCodes "/clear" by decide),
      if_neg (show ¬strCodes "/user" = strCodes "/room" by decide),
      if_pos (show strCodes "/user" = strCodes "/user" from rfl), if_neg hne]
    rfl
  refine ⟨by rw [hbranch], by rw [hbranch], ?_, rfl⟩
  intro text
  rw [hbranch]
  rfl

/-- C8 witness: renaming to `neo` on a concrete UI. -/
theorem C8_rename_in_place_witness :
    (processCommand
      { chatRoom :=
        { Host := { hostID := strCodes "QmA",
                    pubsubJoin := fun _ => .error (strCodes "nope") },
          RoomName := strCodes "lobby", UserName := strCodes "u",
          selfID := strCodes "QmA",
          psTopic := { name := strCodes "room-peerchat-lobby",
                       subscribeResult := .ok { subId := 0 } },
          psSub := { subId := 0 } },
        inputLabel := strCodes "u > ",
        msgBoxTitle := strCodes "ChatRoom-lobby" }
      { CommandType := strCodes "/user", Argument := strCodes "neo" }).1
    = { chatRoom :=
        { Host := { hostID := strCodes "QmA",
                    pubsubJoin := fun _ => .error (strCodes "nope") },
          RoomName := strCodes "lobby", UserName := strCodes "neo",
          selfID := strCodes "QmA",
          psTopic := { name := strCodes "room-peerchat-lobby",
                       subscribeResult := .ok { subId := 0 } },
          psSub := { subId := 0 } },
        inputLabel := strCodes "neo" ++ strCodes " > ",
        msgBoxTitle := strCodes "ChatRoom-lobby" } :=
  (C8_rename_in_place _ (strCodes "neo") (by decide)).1
